import Mathlib

/-!
Verification of the Medical-Chat-Bot RAG service.

The development shallowly embeds the `/api/chat` request handler of
`app.py` (lines 82-131; `app/main.py` mirrors it), the answer-extraction
and fallback logic (lines 116-124), and the index-creation step of the
ingestion script `store.py` (lines 25-36).

External collaborators (the Pinecone retriever and the Groq-backed RAG
chain) are modelled as oracle functions; a call that may raise a Python
exception is an `Except String` value.  The handler additionally returns
a trace of the pipeline calls it performs, so that claims about which
collaborator is (or is not) invoked can be stated.
-/

namespace Medibot

/-- Raw output of `rag_chain.invoke` as seen by the answer-extraction
step (app.py lines 116-120): either a Python dict with string values, or
the `str(...)` representation of a non-dict value. -/
inductive RawOutput where
  | dict (entries : List (String × String))
  | plain (s : String)
deriving DecidableEq

/-- Python `d.get(k)`: the value stored under key `k`, if present. -/
def dictGet (entries : List (String × String)) (k : String) : Option String :=
  (entries.find? (fun p => p.fst == k)).map Prod.snd

/-- Python `x or y` for an optional string left operand: `None` and the
empty string are falsy, so both fall through to `y` (app.py line 118). -/
def pyOr (x : Option String) (y : String) : String :=
  match x with
  | none => y
  | some s => if s = "" then y else s

/-- Answer extraction (app.py lines 116-120): for a dict,
`response_obj.get("answer") or response_obj.get("response") or
response_obj.get("output") or ""`; otherwise `str(response_obj)`. -/
def extractAnswer : RawOutput → String
  | .dict m => pyOr (dictGet m "answer") (pyOr (dictGet m "response") (pyOr (dictGet m "output") ""))
  | .plain s => s

/-- Fallback substitution (app.py lines 122-124): an empty extracted
answer is replaced by the echo template applied to `user_message`. -/
def applyFallback (answer userMessage : String) : String :=
  if answer = "" then "(No answer generated) You asked: " ++ userMessage else answer

/-- Python `s.strip()` on the character list: drop leading and trailing
whitespace characters. -/
def stripChars (l : List Char) : List Char :=
  (((l.dropWhile Char.isWhitespace).reverse).dropWhile Char.isWhitespace).reverse

/-- Python `s.strip()` (app.py line 89): the string with leading and
trailing whitespace removed. -/
def pyStrip (s : String) : String :=
  String.mk (stripChars s.data)

/-- Outcome of one `/api/chat` request: a 200 body, or an error status
with its message. -/
inductive ChatOutcome where
  | ok (response : String)
  | err (status : Nat) (message : String)
deriving DecidableEq

/-- Pipeline calls the handler can make: the direct
`retriever.get_relevant_documents` call, the `rag_chain.invoke` call,
and (inside the chain) the LLM generation call. -/
inductive Event where
  | retrieverCall (query : String)
  | chainInvoke (input : String)
  | llmCall (input : String)
deriving DecidableEq

/-- The `/api/chat` handler (app.py lines 82-131).  `init` is the
truthiness of the module-level `rag_chain`; `retrieve` models
`retriever.get_relevant_documents` (a raised exception is `.error`);
`ragInvoke` models `rag_chain.invoke`; `getMsg` models
`request.get_json(force=True)` followed by `data.get("message", "")`,
where `.error` is an exception raised before validation (absorbed by the
outer catch-all at lines 129-131).  Returns the HTTP outcome together
with the trace of pipeline calls the handler itself performs. -/
def chat (init : Bool) (retrieve : String → Except String (List String))
    (ragInvoke : String → Except String RawOutput)
    (getMsg : Except String String) : ChatOutcome × List Event :=
  if init = false then (.err 500 "retrieval chain not initialized", [])
  else
    match getMsg with
    | .error _ => (.err 500 "internal server error", [])
    | .ok rawMessage =>
      if pyStrip rawMessage = "" then (.err 400 "empty message", [])
      else
        match retrieve (pyStrip rawMessage) with
        | .error e => (.err 500 ("retrieval error: " ++ e), [.retrieverCall (pyStrip rawMessage)])
        | .ok _retrievedDocs =>
          match ragInvoke (pyStrip rawMessage) with
          | .error e =>
            (.err 500 ("chain invocation error: " ++ e),
             [.retrieverCall (pyStrip rawMessage), .chainInvoke (pyStrip rawMessage)])
          | .ok responseObj =>
            (.ok (applyFallback (extractAnswer responseObj) (pyStrip rawMessage)),
             [.retrieverCall (pyStrip rawMessage), .chainInvoke (pyStrip rawMessage)])

/-- Number of `rag_chain.invoke` calls recorded in a trace. -/
def chainInvokeCount (t : List Event) : Nat :=
  (t.filter fun e => match e with | .chainInvoke _ => true | _ => false).length

/-- Queries of the retriever calls recorded in a trace, in order. -/
def retrieverQueries : List Event → List String
  | [] => []
  | .retrieverCall q :: rest => q :: retrieverQueries rest
  | _ :: rest => retrieverQueries rest

/-- The index-creation step of the ingestion script (store.py lines
25-36): `create_index` runs only when the target name is absent from
`pc.list_indexes().names()`.  Returns the resulting list of index names
and whether `create_index` was called. -/
def buildIndexStep (existingIndexes : List String) (indexName : String) :
    List String × Bool :=
  if indexName ∈ existingIndexes then (existingIndexes, false)
  else (existingIndexes ++ [indexName], true)

/-- Modelled from the spec: `rag_chain = create_retrieval_chain(retriever, chain)`
(app.py lines 60-64) is a library composition whose body is not part of
this repository.  Per the spec's data flow (question → Retriever →
ranked passages → Prompt Assembler → Generator → raw output), invoking
the chain retrieves passages for the input, generates an answer from the
input and those passages, and returns a mapping carrying the answer
under the key "answer". -/
def ragChainModel (retrieve : String → Except String (List String))
    (generate : String → List String → Except String String)
    (input : String) : Except String RawOutput :=
  match retrieve input with
  | .error e => .error e
  | .ok docs =>
    match generate input docs with
    | .error e => .error e
    | .ok ans => .ok (.dict [("input", input), ("answer", ans)])

/-- Pipeline calls performed internally by one `ragChainModel`
invocation. -/
def ragChainEvents (retrieve : String → Except String (List String))
    (_generate : String → List String → Except String String)
    (input : String) : List Event :=
  match retrieve input with
  | .error _ => [.retrieverCall input]
  | .ok _ => [.retrieverCall input, .llmCall input]

/-- Expand a handler trace by splicing, after each `chainInvoke` event,
the internal calls that invocation performs. -/
def expandTrace (internal : String → List Event) : List Event → List Event
  | [] => []
  | .chainInvoke q :: rest => .chainInvoke q :: (internal q ++ expandTrace internal rest)
  | e :: rest => e :: expandTrace internal rest

/-- The extraction rule as the spec words it: probe the keys in the
given priority order and return the first present non-empty value, or
the empty string when none qualifies. -/
def firstNonEmptyValue (m : List (String × String)) : List String → String
  | [] => ""
  | k :: ks =>
    match dictGet m k with
    | some v => if v = "" then firstNonEmptyValue m ks else v
    | none => firstNonEmptyValue m ks

/-- Helper: the fallback step never yields an empty string. -/
theorem applyFallback_ne_empty (a m : String) : applyFallback a m ≠ "" := by
  unfold applyFallback
  split
  · intro hc
    have hlen := congrArg String.length hc
    rw [String.length_append] at hlen
    have hpos : 0 < ("(No answer generated) You asked: " : String).length := by decide
    have hz : ("" : String).length = 0 := rfl
    rw [hz] at hlen
    omega
  · assumption

/-- Claim C1: whenever the chat handler returns a 200 outcome, the
response string is non-empty: empty extraction is replaced by the
non-empty fallback, so POST /api/chat never returns an empty
`response` string. -/
theorem chat_ok_response_ne_empty (init : Bool)
    (retrieve : String → Except String (List String))
    (ragInvoke : String → Except String RawOutput)
    (getMsg : Except String String) (r : String)
    (h : (chat init retrieve ragInvoke getMsg).fst = ChatOutcome.ok r) :
    r ≠ "" := by
  unfold chat at h
  split at h
  · simp at h
  · split at h
    · simp at h
    · split at h
      · simp at h
      · split at h
        · simp at h
        · split at h
          · simp at h
          · simp at h
            exact h ▸ applyFallback_ne_empty _ _

/-- Witness for C1 at a concrete request. -/
theorem chat_ok_response_ne_empty_witness : ("X" : String) ≠ "" :=
  chat_ok_response_ne_empty true (fun _ => .ok [])
    (fun _ => .ok (RawOutput.dict [("answer", "X")])) (.ok "hi") "X" (by decide)

/-- Claim C2: the answer extractor probes the keys "answer", "response",
"output" in that fixed priority order and returns the first present
non-empty value; a non-mapping raw output is returned as its string
representation. -/
theorem extract_follows_priority :
    (∀ m : List (String × String),
      extractAnswer (RawOutput.dict m) = firstNonEmptyValue m ["answer", "response", "output"])
    ∧ (∀ s : String, extractAnswer (RawOutput.plain s) = s) := by
  refine ⟨fun m => ?_, fun s => rfl⟩
  rcases h1 : dictGet m "answer" with _ | v1 <;>
    rcases h2 : dictGet m "response" with _ | v2 <;>
      rcases h3 : dictGet m "output" with _ | v3 <;>
        simp [extractAnswer, firstNonEmptyValue, pyOr, h1, h2, h3]

/-- Claim C3 counterexample: for the raw message " hi " (surrounded by
whitespace) and a generator returning the empty mapping, the returned
answer is the fallback template applied to the trimmed message "hi",
not to the original raw message " hi ". -/
theorem fallback_raw_message_counterexample :
    (chat true (fun _ => .ok []) (fun _ => .ok (RawOutput.dict [])) (.ok " hi ")).fst
      = ChatOutcome.ok "(No answer generated) You asked: hi"
    ∧ (chat true (fun _ => .ok []) (fun _ => .ok (RawOutput.dict [])) (.ok " hi ")).fst
      ≠ ChatOutcome.ok ("(No answer generated) You asked: " ++ " hi ") := by
  constructor
  · decide
  · decide

/-- Claim C3 (amended): when the generator returns the empty mapping or
the empty string, the extracted answer equals the fallback template
applied to the trimmed message. -/
theorem fallback_on_empty_generation
    (retrieve : String → Except String (List String))
    (raw : String) (docs : List String) (g : RawOutput)
    (hm : pyStrip raw ≠ "") (hr : retrieve (pyStrip raw) = .ok docs)
    (hg : g = RawOutput.dict [] ∨ g = RawOutput.plain "") :
    (chat true retrieve (fun _ => .ok g) (.ok raw)).fst
      = ChatOutcome.ok ("(No answer generated) You asked: " ++ pyStrip raw) := by
  rcases hg with hg | hg <;> subst hg <;>
    simp [chat, hm, hr, extractAnswer, dictGet, pyOr, applyFallback]

/-- Witness for C3 (amended) at a concrete request. -/
theorem fallback_on_empty_generation_witness :
    (chat true (fun _ => .ok []) (fun _ => .ok (RawOutput.dict [])) (.ok "hi")).fst
      = ChatOutcome.ok ("(No answer generated) You asked: " ++ pyStrip "hi") :=
  fallback_on_empty_generation (fun _ => .ok []) "hi" [] (RawOutput.dict [])
    (by decide) rfl (Or.inl rfl)

/-- Claim C4: a message that trims to the empty string is rejected with
status 400 and an empty call trace: neither the retriever nor the
generator is invoked. -/
theorem empty_message_rejected
    (retrieve : String → Except String (List String))
    (ragInvoke : String → Except String RawOutput)
    (raw : String) (h : pyStrip raw = "") :
    chat true retrieve ragInvoke (.ok raw)
      = (ChatOutcome.err 400 "empty message", []) := by
  simp [chat, h]

/-- Witness for C4 at the whitespace-only message. -/
theorem empty_message_rejected_witness :
    chat true (fun _ => .ok []) (fun _ => .ok (RawOutput.plain "x")) (.ok "   ")
      = (ChatOutcome.err 400 "empty message", []) :=
  empty_message_rejected _ _ "   " (by decide)

/-- Claim C5: when retrieval raises, the handler answers 500 with a
retrieval-error message and the trace holds only the retriever call:
the RAG chain (generator) is never invoked. -/
theorem retrieval_error_no_generation
    (retrieve : String → Except String (List String))
    (ragInvoke : String → Except String RawOutput)
    (raw e : String)
    (hm : pyStrip raw ≠ "") (hr : retrieve (pyStrip raw) = .error e) :
    chat true retrieve ragInvoke (.ok raw)
      = (ChatOutcome.err 500 ("retrieval error: " ++ e), [Event.retrieverCall (pyStrip raw)])
    ∧ chainInvokeCount (chat true retrieve ragInvoke (.ok raw)).snd = 0 := by
  have h1 : chat true retrieve ragInvoke (.ok raw)
      = (ChatOutcome.err 500 ("retrieval error: " ++ e), [Event.retrieverCall (pyStrip raw)]) := by
    simp [chat, hm, hr]
  exact ⟨h1, by rw [h1]; rfl⟩

/-- Witness for C5 at a concrete request. -/
theorem retrieval_error_no_generation_witness :
    (chat true (fun _ => .error "down") (fun _ => .ok (RawOutput.plain "x")) (.ok "hi")
      = (ChatOutcome.err 500 ("retrieval error: " ++ "down"), [Event.retrieverCall (pyStrip "hi")]))
    ∧ chainInvokeCount (chat true (fun _ => .error "down")
        (fun _ => .ok (RawOutput.plain "x")) (.ok "hi")).snd = 0 :=
  retrieval_error_no_generation (fun _ => .error "down") (fun _ => .ok (RawOutput.plain "x"))
    "hi" "down" (by decide) rfl

/-- Claim C6: when the RAG chain invocation raises, the handler answers
500 with a generation-error message and the trace records exactly one
chain invocation: no retry is performed. -/
theorem generation_error_single_call
    (retrieve : String → Except String (List String))
    (ragInvoke : String → Except String RawOutput)
    (raw e : String) (docs : List String)
    (hm : pyStrip raw ≠ "") (hr : retrieve (pyStrip raw) = .ok docs)
    (hg : ragInvoke (pyStrip raw) = .error e) :
    chat true retrieve ragInvoke (.ok raw)
      = (ChatOutcome.err 500 ("chain invocation error: " ++ e),
         [Event.retrieverCall (pyStrip raw), Event.chainInvoke (pyStrip raw)])
    ∧ chainInvokeCount (chat true retrieve ragInvoke (.ok raw)).snd = 1 := by
  have h1 : chat true retrieve ragInvoke (.ok raw)
      = (ChatOutcome.err 500 ("chain invocation error: " ++ e),
         [Event.retrieverCall (pyStrip raw), Event.chainInvoke (pyStrip raw)]) := by
    simp [chat, hm, hr, hg]
  exact ⟨h1, by rw [h1]; rfl⟩

/-- Witness for C6 at a concrete request. -/
theorem generation_error_single_call_witness :
    (chat true (fun _ => .ok []) (fun _ => .error "boom") (.ok "hi")
      = (ChatOutcome.err 500 ("chain invocation error: " ++ "boom"),
         [Event.retrieverCall (pyStrip "hi"), Event.chainInvoke (pyStrip "hi")]))
    ∧ chainInvokeCount (chat true (fun _ => .ok [])
        (fun _ => .error "boom") (.ok "hi")).snd = 1 :=
  generation_error_single_call (fun _ => .ok []) (fun _ => .error "boom")
    "hi" "boom" [] (by decide) rfl rfl

/-- Claim C7: when the RAG chain was never initialized, every request,
whatever its body, receives the 500 service-unavailable answer with an
empty call trace: no retrieval is attempted. -/
theorem uninitialized_service_unavailable
    (retrieve : String → Except String (List String))
    (ragInvoke : String → Except String RawOutput)
    (getMsg : Except String String) :
    chat false retrieve ragInvoke getMsg
      = (ChatOutcome.err 500 "retrieval chain not initialized", []) := by
  simp [chat]

/-- Claim C8: an exception raised before validation (such as a JSON
body-parsing failure) is caught by the handler's catch-all and turned
into the fixed generic 500 message, independent of the exception's
detail, with no pipeline call made. -/
theorem catch_all_internal_error
    (retrieve : String → Except String (List String))
    (ragInvoke : String → Except String RawOutput)
    (e : String) :
    chat true retrieve ragInvoke (.error e)
      = (ChatOutcome.err 500 "internal server error", []) := by
  simp [chat]

/-- Claim C9: the ingestion build step is idempotent at the index-name
level: running it again on the state produced by a first run leaves the
index list unchanged and does not call create again. -/
theorem index_build_idempotent (s : List String) (n : String) :
    buildIndexStep (buildIndexStep s n).fst n = ((buildIndexStep s n).fst, false) := by
  by_cases h : n ∈ s <;> simp [buildIndexStep, h]

/-- Claim C10: on a successful request the retriever runs twice with the
same trimmed message — once directly in the handler and once inside the
RAG chain — and the returned response does not depend on the documents
the direct (first) retrieval returns: two handlers whose direct
retrievers return different documents give the same outcome. -/
theorem double_retrieval_and_independence
    (retrieve r1 r2 : String → Except String (List String))
    (gen : String → List String → Except String String)
    (raw : String) (docs d1 d2 : List String) (ans : String)
    (hm : pyStrip raw ≠ "")
    (hr : retrieve (pyStrip raw) = .ok docs)
    (hg : gen (pyStrip raw) docs = .ok ans)
    (h1 : r1 (pyStrip raw) = .ok d1) (h2 : r2 (pyStrip raw) = .ok d2) :
    (chat true r1 (ragChainModel retrieve gen) (.ok raw)).fst
      = (chat true r2 (ragChainModel retrieve gen) (.ok raw)).fst
    ∧ retrieverQueries (expandTrace (ragChainEvents retrieve gen)
        (chat true retrieve (ragChainModel retrieve gen) (.ok raw)).snd)
      = [pyStrip raw, pyStrip raw] := by
  have hmodel : ragChainModel retrieve gen (pyStrip raw)
      = .ok (RawOutput.dict [("input", pyStrip raw), ("answer", ans)]) := by
    simp [ragChainModel, hr, hg]
  constructor
  · simp [chat, hm, h1, h2, hmodel]
  · simp [chat, hm, hr, hmodel, expandTrace, ragChainEvents, retrieverQueries]

/-- Witness for C10 at a concrete request. -/
theorem double_retrieval_and_independence_witness :
    ((chat true (fun _ => .ok [])
        (ragChainModel (fun _ => .ok ["d"]) (fun _ _ => .ok "a")) (.ok "hi")).fst
      = (chat true (fun _ => .ok ["x", "y"])
          (ragChainModel (fun _ => .ok ["d"]) (fun _ _ => .ok "a")) (.ok "hi")).fst)
    ∧ retrieverQueries (expandTrace (ragChainEvents (fun _ => .ok ["d"]) (fun _ _ => .ok "a"))
        (chat true (fun _ => .ok ["d"])
          (ragChainModel (fun _ => .ok ["d"]) (fun _ _ => .ok "a")) (.ok "hi")).snd)
      = [pyStrip "hi", pyStrip "hi"] :=
  double_retrieval_and_independence (fun _ => .ok ["d"]) (fun _ => .ok [])
    (fun _ => .ok ["x", "y"]) (fun _ _ => .ok "a") "hi" ["d"] [] ["x", "y"] "a"
    (by decide) rfl rfl rfl rfl

end Medibot
